import Mathlib

/-!
Verification development for the 0D cardiovascular flow model and its
monolithic coupling layer (modules/flow0d/cardiovascular0D.py,
modules/flow0d/flow0d.py, modules/coupling/fluid_ale_flow0d.py).

The symbolic layer (sympy expressions used to build the residual arrays
`f_`, `df_` and their Jacobians `K_`, `dK_`) is embedded as an inductive
expression language; state symbol `x_[j]` is `Expr.sym j`, the time symbol
`self.t_` is `Expr.time`.  The numeric layer (PETSc/numpy vectors of length
`numdof`, single-rank ownership covering the full range) is embedded as
functions `ℕ → ℚ` together with the explicit length `numdof`.
-/

namespace Ambit

/-! ## Symbolic expression language (the sympy fragment used by the model) -/

mutual

/-- Scalar sympy expressions appearing in the 0D model: rational constants,
state symbols `x_[j]`, the time symbol `t_`, arithmetic, rational powers,
`tanh`, `sqrt`, and 2- or 3-branch `Piecewise`. -/
inductive Expr where
  | const : ℚ → Expr
  | sym : ℕ → Expr
  | time : Expr
  | add : Expr → Expr → Expr
  | sub : Expr → Expr → Expr
  | mul : Expr → Expr → Expr
  | div : Expr → Expr → Expr
  | pow : Expr → ℚ → Expr
  | tanh : Expr → Expr
  | sqrt : Expr → Expr
  | pw2 : Expr → Cond → Expr → Cond → Expr
  | pw3 : Expr → Cond → Expr → Cond → Expr → Cond → Expr

/-- Boolean conditions of `sympy.Piecewise` branches as used in `valvelaw`:
comparisons between expressions and their conjunction/disjunction. -/
inductive Cond where
  | lt : Expr → Expr → Cond
  | ge : Expr → Expr → Cond
  | conj : Cond → Cond → Cond
  | disj : Cond → Cond → Cond

end

/-- Symbolic partial derivative with respect to state symbol `x_[j]`
(`sympy.diff(e, x_[j])`): standard differentiation rules; `Piecewise`
is differentiated branchwise, keeping the branch conditions. -/
def Expr.deriv : Expr → ℕ → Expr
  | .const _, _ => .const 0
  | .sym k, j => .const (if k = j then 1 else 0)
  | .time, _ => .const 0
  | .add a b, j => .add (a.deriv j) (b.deriv j)
  | .sub a b, j => .sub (a.deriv j) (b.deriv j)
  | .mul a b, j => .add (.mul (a.deriv j) b) (.mul a (b.deriv j))
  | .div a b, j => .div (.sub (.mul (a.deriv j) b) (.mul a (b.deriv j))) (.mul b b)
  | .pow a c, j => .mul (.mul (.const c) (.pow a (c - 1))) (a.deriv j)
  | .tanh a, j => .mul (.sub (.const 1) (.mul (.tanh a) (.tanh a))) (a.deriv j)
  | .sqrt a, j => .div (a.deriv j) (.mul (.const 2) (.sqrt a))
  | .pw2 e1 c1 e2 c2, j => .pw2 (e1.deriv j) c1 (e2.deriv j) c2
  | .pw3 e1 c1 e2 c2 e3 c3, j => .pw3 (e1.deriv j) c1 (e2.deriv j) c2 (e3.deriv j) c3

/-! ## Symbolic model state and `set_stiffness`

`cardiovascular0Dbase.set_solve_arrays` allocates `f_`, `df_` (residual
expression arrays) and `K_`, `dK_` (stiffness expression arrays) of size
`numdof` resp. `numdof × numdof`; `equation_map` (in the derived model
classes) fills `f_`/`df_`.  `set_stiffness` then writes every stiffness
entry by symbolic differentiation. -/

/-- The symbolic-array state of `cardiovascular0Dbase`: residual expression
arrays `f_`, `df_` and stiffness expression arrays `K_`, `dK_`. -/
structure SymState where
  numdof : ℕ
  f_ : ℕ → Expr
  df_ : ℕ → Expr
  K_ : ℕ → ℕ → Expr
  dK_ : ℕ → ℕ → Expr

/-- `cardiovascular0Dbase.set_stiffness`: for every `i, j < numdof` set
`dK_[i][j] = sp.diff(df_[i], x_[j])` and `K_[i][j] = sp.diff(f_[i], x_[j])`. -/
def cardiovascular0Dbase.set_stiffness (st : SymState) : SymState :=
  { st with
    dK_ := fun i j => if i < st.numdof ∧ j < st.numdof then (st.df_ i).deriv j else st.dK_ i j
    K_ := fun i j => if i < st.numdof ∧ j < st.numdof then (st.f_ i).deriv j else st.K_ i j }

/-! ## Valve law library (`cardiovascular0Dbase.valvelaw`)

The opening-pressure argument `popen` is, at every call site, either a
pressure symbol or the sympy singleton `S.Zero`; it is embedded as
`Option ℕ` (`some n` = symbol `x_[n]`, `none` = `S.Zero`).  The numeric
entries of `vparams` (all Python floats) are passed as `vp1 = vparams[1]`,
`vp2 = vparams[2]`, `veps = vparams[-1]`.  Number-only subexpressions that
sympy folds automatically (e.g. `p0 = (popen - eps/2 - popen)/Rmax`) are
embedded as the folded rational constants. -/

/-- Embedding of the opening-pressure argument as an expression. -/
def popenExpr : Option ℕ → Expr
  | some n => .sym n
  | none => .const 0

/-- The law-selector chain of `cardiovascular0Dbase.valvelaw` computing the
symbolic flow expression `vl` (factored out of `valvelaw` for the proofs;
`valvelaw` is the composition below). -/
def cardiovascular0Dbase.valvelaw_flow (p : Expr) (popen : Option ℕ) (Rmin Rmax : ℚ)
    (vtoken : String) (vp1 vp2 veps : ℚ) (topen tclose : ℚ) :
    Except String Expr :=
  let po := popenExpr popen
    if vtoken = "pwlin_pres" then
      -- R = Piecewise((Rmax, p < popen), (Rmin, p >= popen)); vl = (popen - p)/R
      let R := Expr.pw2 (.const Rmax) (.lt p po) (.const Rmin) (.ge p po)
      pure (Expr.div (.sub po p) R)
    else if vtoken = "pwlin_time" then
      let R :=
        if topen > tclose then
          Expr.pw2 (.const Rmax) (.conj (.lt .time (.const topen)) (.ge .time (.const tclose)))
                   (.const Rmin) (.disj (.ge .time (.const topen)) (.lt .time (.const tclose)))
        else
          Expr.pw2 (.const Rmax) (.disj (.lt .time (.const topen)) (.ge .time (.const tclose)))
                   (.const Rmin) (.conj (.ge .time (.const topen)) (.lt .time (.const tclose)))
      pure (Expr.div (.sub po p) R)
    else if vtoken = "smooth_pres_resistance" then
      -- R = 0.5*(Rmax - Rmin)*(tanh((popen - p)/eps) + 1) + Rmin
      let R := Expr.add
        (.mul (.const (1/2 * (Rmax - Rmin)))
          (.add (.tanh (.div (.sub po p) (.const veps))) (.const 1)))
        (.const Rmin)
      pure (Expr.div (.sub po p) R)
    else if vtoken = "smooth_pres_momentum" then
      -- p0 = -eps/2/Rmax, p1 = eps/2/Rmin, m0 = 1/Rmax, m1 = 1/Rmin (numeric)
      let p0 : ℚ := -(veps/2) / Rmax
      let p1 : ℚ := (veps/2) / Rmin
      let m0 : ℚ := 1 / Rmax
      let m1 : ℚ := 1 / Rmin
      let s := Expr.div (.sub p (.sub po (.const (veps/2)))) (.const veps)
      -- spline ansatz functions
      let h00 := Expr.add (.sub (.mul (.const 2) (.pow s 3)) (.mul (.const 3) (.pow s 2))) (.const 1)
      let h01 := Expr.add (.mul (.const (-2)) (.pow s 3)) (.mul (.const 3) (.pow s 2))
      let h10 := Expr.add (.sub (.pow s 3) (.mul (.const 2) (.pow s 2))) s
      let h11 := Expr.sub (.pow s 3) (.pow s 2)
      let c := Expr.add (.add (.add (.mul h00 (.const p0)) (.mul h10 (.const (m0 * veps))))
        (.mul h01 (.const p1))) (.mul h11 (.const (m1 * veps)))
      pure (Expr.pw3
        (.div (.sub po p) (.const Rmax)) (.lt p (.sub po (.const (veps/2))))
        (.sub (.const 0) c) (.conj (.ge p (.sub po (.const (veps/2)))) (.lt p (.add po (.const (veps/2)))))
        (.div (.sub po p) (.const Rmin)) (.ge p (.add po (.const (veps/2)))))
    else if vtoken = "pw_pres_regurg" then
      pure (Expr.pw2 (.mul (.const (vp1 * vp2)) (.sqrt (.sub po p))) (.lt p po)
        (.div (.sub po p) (.const Rmin)) (.ge p po))
    else
      Except.error ("Unknown valve law " ++ vtoken ++ "!")

/-- `cardiovascular0Dbase.valvelaw(p, popen, Rmin, Rmax, vparams, topen, tclose)`:
returns the symbolic flow expression `vlaw` together with the linearization
helper `res = 1/sp.diff(vl, popen)` (or `S.One` when `popen` is the sympy
singleton `S.Zero`); raises `NameError` on an unknown law token. -/
def cardiovascular0Dbase.valvelaw (p : Expr) (popen : Option ℕ) (Rmin Rmax : ℚ)
    (vtoken : String) (vp1 vp2 veps : ℚ) (topen tclose : ℚ) :
    Except String (Expr × Expr) := do
  let vl ← cardiovascular0Dbase.valvelaw_flow p popen Rmin Rmax vtoken vp1 vp2 veps topen tclose
  let vlaw := vl
  let res : Expr :=
    match popen with
    | some n => .div (.const 1) (vl.deriv n)
    | none => .const 1
  return (vlaw, res)

/-! ## Numeric layer: vectors, matrices, `np.isclose`

PETSc vectors of global size `numdof` are embedded as functions `ℕ → ℚ`
with the explicit length carried separately; on the numpy branch (and on
one rank) the ownership range is the full range `0..numdof-1`. -/

/-- A distributed/numpy vector, addressed by global index. -/
abbrev Vec := ℕ → ℚ

/-- A dense `numdof × numdof` matrix, addressed by global indices. -/
abbrev Mat := ℕ → ℕ → ℚ

/-- `numpy.isclose(a, b)` with the default tolerances
`rtol = 1e-05`, `atol = 1e-08`: `|a - b| <= atol + rtol*|b|`. -/
def npIsClose (a b : ℚ) : Bool :=
  |a - b| ≤ 1/100000000 + (1/100000) * |b|

/-- `vec.axpy(alpha, x)`: `y ← y + alpha * x` (PETSc `VecAXPY`). -/
def vecAxpy (alpha : ℚ) (x y : Vec) : Vec :=
  fun i => y i + alpha * x i

/-- `mat.axpy(alpha, X)`: `Y ← Y + alpha * X` (PETSc `MatAXPY`). -/
def matAxpy (alpha : ℚ) (x y : Mat) : Mat :=
  fun i j => y i j + alpha * x i j

/-! ## `set_prescribed_variables` -/

/-- `cardiovascular0Dbase.set_prescribed_variables(x, r, K, val, index_prescribed)`:
on the numpy branch the ownership range is `0..numdof-1` (`len(x) = numdof`
for the vectors of `Flow0DProblem`).  Sets `r[idx] = x[idx] - val` when
`idx` is owned, zeroes row `idx` of `K` except for a unit diagonal entry
(only columns `j < numdof` are visited); returns the modified `(r, K)`. -/
def cardiovascular0Dbase.set_prescribed_variables (numdof : ℕ) (x r : Vec) (K : Mat)
    (val : ℚ) (idx : ℕ) : Vec × Mat :=
  (fun i => if i = idx ∧ idx < numdof then x idx - val else r i,
   fun i j => if i < numdof ∧ i = idx ∧ j < numdof then (if j ≠ idx then 0 else 1) else K i j)

/-! ## `Flow0DProblem` time integration (`theta0d_timint`, `assemble_residual_stiffness`) -/

/-- `Flow0DProblem.theta0d_timint(t)`: `theta = 1.0` on the very first step
(`np.isclose(t, dt)`) when `initial_backwardeuler` is configured, else
`theta_ost`. -/
def Flow0DProblem.theta0d_timint (initial_backwardeuler : Bool) (theta_ost dt t : ℚ) : ℚ :=
  if initial_backwardeuler then
    (if npIsClose t dt then 1 else theta_ost)
  else theta_ost

/-- `Flow0DProblem.assemble_residual_stiffness(t)`: builds
`r = (df - df_old)/dt + theta*f + (1-theta)*f_old` by four `axpy` calls on a
fresh zero vector and `K_total = (1/dt)*dK + theta*K` by two `axpy` calls on
a fresh zero matrix, then overrides rows for the prescribed variables
(`prescribed` lists `(varmap[a], timecurve value at t)` pairs). -/
def Flow0DProblem.assemble_residual_stiffness (numdof : ℕ)
    (initial_backwardeuler : Bool) (theta_ost dt : ℚ)
    (s df df_old f f_old : Vec) (dK K : Mat)
    (prescribed : List (ℕ × ℚ)) (t : ℚ) : Vec × Mat :=
  let theta := Flow0DProblem.theta0d_timint initial_backwardeuler theta_ost dt t
  let r : Vec := fun _ => 0
  let r := vecAxpy (1/dt) df r
  let r := vecAxpy (-(1/dt)) df_old r
  let r := vecAxpy theta f r
  let r := vecAxpy (1 - theta) f_old r
  let Ktot : Mat := fun _ _ => 0
  let Ktot := matAxpy (1/dt) dK Ktot
  let Ktot := matAxpy theta K Ktot
  prescribed.foldl
    (fun rK p =>
      cardiovascular0Dbase.set_prescribed_variables numdof s rK.1 rK.2 p.2 p.1)
    (r, Ktot)

/-! ## Problem-level vector state, `update`, `cycle_check`

`Flow0DProblem` owns the PETSc state vectors `s, s_old`, the residual-term
vectors `df, df_old, f, f_old`, the numpy auxiliary vectors `aux, aux_old`,
the cycle snapshots `sTc, sTc_old`, and the cycle counter/error
(`ti.cycle[0]`, `ti.cycleerror[0]`).  All vectors have length `numdof`;
ownership ranges cover the full range. -/

/-- The mutable vector state of `Flow0DProblem` relevant to `update` and
`cycle_check` (snapshots named as in the base class: `varTc = sTc`). -/
structure ProblemState where
  s : Vec
  df : Vec
  f : Vec
  aux : Vec
  s_old : Vec
  df_old : Vec
  f_old : Vec
  aux_old : Vec
  sTc : Vec
  sTc_old : Vec
  cycle : ℤ
  cyclerr : ℚ

/-- `cardiovascular0Dbase.update(var, df, f, var_old, df_old, f_old, aux, aux_old)`
as called by `Flow0DProblem.update`: copies every owned entry of the new
vectors into the old ones (`var_old[i] = var[i]`, `df_old[i] = df[i]`,
`f_old[i] = f[i]` over the ownership range, `aux_old[i] = aux[i]` over
`range(len(aux))` with `len(aux) = numdof`). -/
def cardiovascular0Dbase.update (numdof : ℕ) (st : ProblemState) : ProblemState :=
  { st with
    s_old := fun i => if i < numdof then st.s i else st.s_old i
    df_old := fun i => if i < numdof then st.df i else st.df_old i
    f_old := fun i => if i < numdof then st.f i else st.f_old i
    aux_old := fun i => if i < numdof then st.aux i else st.aux_old i }

/-- Modelled from the spec: `check_periodic` (defined in the derived
`cardiovascular0D_syspul*` model classes, absent from `src/`) computes a
configurable cycle-to-cycle error norm between the two snapshots (the norm
itself — all-variables or a named subset — is kept abstract as `errnorm`),
stores it as the cycle error, and reports periodicity when the error is
below the convergence threshold `eps_periodic`. -/
def check_periodic (errnorm : String → Vec → Vec → ℚ) (varTc varTc_old : Vec)
    (eps_periodic : ℚ) (check : String) : Bool × ℚ :=
  let err := errnorm check varTc varTc_old
  (err < eps_periodic, err)

/-- `cardiovascular0Dbase.cycle_check(var, varTc, varTc_old, t, cycle, cyclerr,
eps_periodic, check, ...)`: at a cycle boundary (`T_cycl > 0` and
`np.isclose(t, T_cycl)`) snapshot `var` into `varTc`, run the periodicity
check (if `check` is not `None`), force the result to `False` while
`cycle[0] <= induce_pert_after_cycl`, copy `varTc` into `varTc_old`, and
increment the cycle counter.  The optional `write_initial` call is file
output only and does not touch the state.  Returns `is_periodic` and the
updated state. -/
def cardiovascular0Dbase.cycle_check (numdof : ℕ) (T_cycl : ℚ)
    (errnorm : String → Vec → Vec → ℚ) (eps_periodic : ℚ) (check : Option String)
    (induce_pert_after_cycl : ℤ) (t : ℚ) (st : ProblemState) : Bool × ProblemState :=
  if T_cycl > 0 ∧ npIsClose t T_cycl then
    let varTc : Vec := fun i => if i < numdof then st.s i else st.sTc i
    let chk := match check with
      | some c => check_periodic errnorm varTc st.sTc_old eps_periodic c
      | none => (false, st.cyclerr)
    let is_periodic := if st.cycle ≤ induce_pert_after_cycl then false else chk.1
    let varTc_old : Vec := fun i => if i < numdof then varTc i else st.sTc_old i
    (is_periodic,
     { st with sTc := varTc, sTc_old := varTc_old, cycle := st.cycle + 1, cyclerr := chk.2 })
  else (false, st)

/-! ## Perturbation ("disease induction") machinery

`cardiovascular0Dbase.induce_perturbation` scales the targeted valve
resistance parameter and unconditionally re-runs the symbolic pipeline
(`setup_arrays`, `set_compartment_interfaces`, `equation_map`,
`set_stiffness`, `lambdify_expressions`); the re-run is modelled by the
`rebuilds` generation counter (the bodies of `setup_arrays`/`equation_map`
live in the derived model classes, absent from `src/`). -/

/-- The valve-resistance parameters targeted by the perturbations, plus the
generation counter of the symbolic rebuild pipeline. -/
structure CardState where
  R_vin_l_max : ℚ
  R_vin_l_min : ℚ
  R_vout_l_max : ℚ
  R_vout_l_min : ℚ
  rebuilds : ℕ

/-- `cardiovascular0Dbase.induce_perturbation(perturb_type, perturb_factor)`:
`mr`/`ms`/`ar`/`as` scale the corresponding resistance by the factor; any
other type scales nothing; the rebuild pipeline runs unconditionally. -/
def cardiovascular0Dbase.induce_perturbation (perturb_type : String) (perturb_factor : ℚ)
    (st : CardState) : CardState :=
  let st := if perturb_type = "mr" then { st with R_vin_l_max := st.R_vin_l_max * perturb_factor } else st
  let st := if perturb_type = "ms" then { st with R_vin_l_min := st.R_vin_l_min * perturb_factor } else st
  let st := if perturb_type = "ar" then { st with R_vout_l_max := st.R_vout_l_max * perturb_factor } else st
  let st := if perturb_type = "as" then { st with R_vout_l_min := st.R_vout_l_min * perturb_factor } else st
  { st with rebuilds := st.rebuilds + 1 }

/-- `Flow0DProblem`'s perturbation bookkeeping: the 0D model parameters plus
the `have_induced_pert` latch. -/
structure PertState where
  card : CardState
  have_induced_pert : Bool

/-- `Flow0DProblem.induce_perturbation()`: only with a positive
`perturb_after_cylce` and once the cycle counter strictly exceeds it,
delegate to the 0D model's `induce_perturbation` and set the latch. -/
def Flow0DProblem.induce_perturbation (perturb_type : String) (perturb_factor : ℚ)
    (perturb_after_cylce cycle : ℤ) (st : PertState) : PertState :=
  if perturb_after_cylce > 0 then
    if cycle > perturb_after_cylce then
      { card := cardiovascular0Dbase.induce_perturbation perturb_type perturb_factor st.card,
        have_induced_pert := true }
    else st
  else st

/-- `Flow0DProblem.induce_state_change()`: called once per accepted time
step; fires only while a perturbation is configured and not yet induced. -/
def Flow0DProblem.induce_state_change (perturb_type : Option String) (perturb_factor : ℚ)
    (perturb_after_cylce cycle : ℤ) (st : PertState) : PertState :=
  match perturb_type with
  | some ptype =>
      if st.have_induced_pert then st
      else Flow0DProblem.induce_perturbation ptype perturb_factor perturb_after_cylce cycle st
  | none => st

/-- Whether the perturbation fires at a step with cycle counter `c`
(the guards of `induce_state_change` / `Flow0DProblem.induce_perturbation`). -/
def pertApplies (perturb_type : Option String) (perturb_after_cylce : ℤ)
    (st : PertState) (c : ℤ) : Bool :=
  perturb_type.isSome && !st.have_induced_pert &&
    decide (perturb_after_cylce > 0) && decide (c > perturb_after_cylce)

/-- A trace of `induce_state_change` calls, one per time step, with the
cycle-counter value observed at each step. -/
def runPert (perturb_type : Option String) (perturb_factor : ℚ)
    (perturb_after_cylce : ℤ) (st : PertState) (trace : List ℤ) : PertState :=
  trace.foldl
    (fun st c => Flow0DProblem.induce_state_change perturb_type perturb_factor
      perturb_after_cylce c st) st

/-- How many steps of the trace actually apply the perturbation. -/
def countPertApplications (perturb_type : Option String) (perturb_factor : ℚ)
    (perturb_after_cylce : ℤ) : PertState → List ℤ → ℕ
  | _, [] => 0
  | st, c :: rest =>
      (if pertApplies perturb_type perturb_after_cylce st c then 1 else 0) +
        countPertApplications perturb_type perturb_factor perturb_after_cylce
          (Flow0DProblem.induce_state_change perturb_type perturb_factor
            perturb_after_cylce c st) rest

/-! ## Chamber interface resolver (`set_compartment_interfaces`) and the
construction-time dispatch of `Flow0DProblem.__init__` -/

/-- Per-chamber configuration: the model-variant tag (`chmodels[ch]['type']`)
and, for `3D_fluid`, the inflow/outflow counts. -/
structure ChamberCfg where
  ctype : String
  num_inflows : ℕ
  num_outflows : ℕ

/-- The configuration consumed by `set_compartment_interfaces`: chamber
models, coupling/variable quantities per chamber position, coronary model
flag, and the chamber variable/coupling index tables. -/
structure IfaceCfg where
  chmodels : String → ChamberCfg
  cq : ℕ → String
  vq : ℕ → String
  cormodel : Option String
  vindex_ch : ℕ → ℤ
  cindex_ch : ℕ → ℤ

/-- The arrays mutated by `set_compartment_interfaces`. -/
structure IfaceState where
  switch_V : ℕ → ℤ
  vname : ℕ → String
  cname : List String
  v_ids : List ℤ
  c_ids : List ℤ
  si : ℕ → ℤ

/-- Pointwise update of an index-keyed table. -/
def setIdx {α : Type} (f : ℕ → α) (i : ℕ) (v : α) : ℕ → α :=
  fun j => if j = i then v else f j

/-- The short chamber name `chn` used in output prefixes. -/
def chamberShortName (ch : String) : String :=
  if ch = "lv" then "v_l"
  else if ch = "rv" then "v_r"
  else if ch = "la" then "at_l"
  else if ch = "ra" then "at_r"
  else "aort_sys"

/-- One iteration of the chamber loop of
`cardiovascular0Dbase.set_compartment_interfaces` for chamber `ch` at
position `i`; raises (`Except.error`) on an unknown chamber model variant
or coupling-quantity combination, mirroring the source's `NameError` /
`ValueError` / failed `assert`. -/
def processChamber (cfg : IfaceCfg) (i : ℕ) (ch : String) (st : IfaceState) :
    Except String IfaceState :=
  let chn := chamberShortName ch
  let cm := cfg.chmodels ch
  if cm.ctype = "0D_elast" ∨ cm.ctype = "0D_elast_prescr" then
    .ok { st with switch_V := setIdx st.switch_V i 1 }
  else if cm.ctype = "0D_rigid" then
    .ok { st with switch_V := setIdx st.switch_V i 0 }
  else if cm.ctype = "prescribed" then
    if cfg.cq i = "volume" then
      .ok { st with switch_V := setIdx st.switch_V i 1, cname := st.cname ++ ["V_" ++ chn] }
    else if cfg.cq i = "flux" then
      .ok { st with switch_V := setIdx st.switch_V i 0, cname := st.cname ++ ["Q_" ++ chn] }
    else
      .error "Unknown coupling quantity!"
  else if cm.ctype = "3D_solid" then
    if cfg.cq i = "volume" then
      .ok { st with
        v_ids := st.v_ids ++ [cfg.vindex_ch i]
        c_ids := st.c_ids ++ [cfg.cindex_ch i]
        cname := st.cname ++ ["V_" ++ chn]
        switch_V := setIdx st.switch_V i 1
        vname := setIdx st.vname i ("p_" ++ chn) }
    else if cfg.cq i = "flux" then
      .ok { st with
        cname := st.cname ++ ["Q_" ++ chn]
        switch_V := setIdx st.switch_V i 0
        vname := setIdx st.vname i ("p_" ++ chn)
        v_ids := st.v_ids ++ [cfg.vindex_ch i]
        c_ids := st.c_ids ++ [cfg.cindex_ch i] }
    else if cfg.cq i = "pressure" then
      let inner : Except String IfaceState :=
        if cfg.vq i = "volume" then
          .ok { st with switch_V := setIdx st.switch_V i 1, vname := setIdx st.vname i ("V_" ++ chn) }
        else if cfg.vq i = "flux" then
          .ok { st with switch_V := setIdx st.switch_V i 0, vname := setIdx st.vname i ("Q_" ++ chn) }
        else
          .error "Variable quantity has to be volume or flux!"
      inner.map
        (fun st1 =>
          let st2 := { st1 with cname := st1.cname ++ ["p_" ++ chn], si := setIdx st1.si i 1 }
          { st2 with v_ids := st2.v_ids ++ [cfg.vindex_ch i - st2.si i] })
    else
      .error "Unknown coupling quantity!"
  else if cm.ctype = "3D_fluid" then
    if cfg.cq i = "pressure" then
      let st1 := { st with
        switch_V := setIdx st.switch_V i 0
        vname := setIdx st.vname i ("Q_" ++ chn) }
      let st2 := if ch ≠ "ao" then { st1 with si := setIdx st1.si i 1 } else st1
      let st3 := { st2 with cname := st2.cname ++
        ((List.range cm.num_inflows).map (fun m => "p_" ++ chn ++ "_i" ++ toString (m + 1))) }
      let st4 := { st3 with cname := st3.cname ++
        ((List.range cm.num_outflows).map (fun m => "p_" ++ chn ++ "_o" ++ toString (m + 1))) }
      -- special case: coronary model with an LV that has no outflows
      let st5 := if cm.num_inflows = 0 ∧ cfg.cormodel.isSome ∧ ch = "ao" then
          { st4 with cname := st4.cname ++ ["p_v_l_o1"] }
        else st4
      .ok st5
    else
      .error "AssertionError: cq must be pressure for 3D_fluid"
  else
    .error ("Unknown chamber model for chamber " ++ ch ++ "!")

/-- `cardiovascular0Dbase.set_compartment_interfaces`: the chamber loop over
`['lv','rv','la','ra','ao']`, stopping at the first raised error. -/
def cardiovascular0Dbase.set_compartment_interfaces (cfg : IfaceCfg) (st : IfaceState) :
    Except String IfaceState :=
  [(0, "lv"), (1, "rv"), (2, "la"), (3, "ra"), (4, "ao")].foldlM
    (fun st p => processChamber cfg p.1 p.2 st) st

/-- The model-type dispatch of `Flow0DProblem.__init__`: the `if/elif` chain
over `model_params['modeltype']`, raising `NameError` on an unknown type.
The value returned names the selected 0D model class. -/
def Flow0DProblem.modeltype_dispatch (modeltype : String) : Except String String :=
  if modeltype = "2elwindkessel" then .ok "cardiovascular0D2elwindkessel"
  else if modeltype = "4elwindkesselLsZ" then .ok "cardiovascular0D4elwindkesselLsZ"
  else if modeltype = "4elwindkesselLpZ" then .ok "cardiovascular0D4elwindkesselLpZ"
  else if modeltype = "syspul" then .ok "cardiovascular0Dsyspul"
  else if modeltype = "syspulcap" then .ok "cardiovascular0Dsyspulcap"
  else if modeltype = "syspulcapcor" then .ok "cardiovascular0Dsyspulcapcor"
  else if modeltype = "syspulcaprespir" then .ok "cardiovascular0Dsyspulcaprespir"
  else .error "Unknown 0D modeltype!"

/-! ## Field index sets (`FluidmechanicsAleFlow0DProblem.get_index_sets`)

Per rank `r`, a PETSc vector's `getOwnershipRange()[0]` is the sum of the
local sizes on the lower ranks; `PETSc.IS().createStride(n, first, 1)` is
the integer interval `[first, first + n)`, embedded as `Finset.Ico`;
`IS.expand` is set union and `IS.difference` set difference. -/

/-- Per-rank local sizes of the four fields: (possibly ROM-reduced) fluid
velocity `v`, fluid pressure `p`, Lagrange multipliers `lm`, ALE
displacement `d`; `nrom` is the local size of the ROM index set used only
under `rom_to_new`. -/
structure ISConfig where
  nranks : ℕ
  nv : ℕ → ℕ
  npr : ℕ → ℕ
  nl : ℕ → ℕ
  nd : ℕ → ℕ
  nrom : ℕ → ℕ

/-- The `isoptions` switches consumed by `get_index_sets`. -/
structure ISOptions where
  rom_to_new : Bool
  lms_to_p : Bool
  lms_to_v : Bool

/-- Ownership-range start of a field on rank `r`: the sum of the preceding
ranks' local sizes. -/
def rankStart (sz : ℕ → ℕ) (r : ℕ) : ℕ :=
  ∑ q ∈ Finset.range r, sz q

/-- `offset_v` on rank `r`: the sum of the ownership-range starts of the
four stacked subvectors
(`vvec.getOwnershipRange()[0] + p...[0] + lm...[0] + d...[0]`). -/
def offsetV (cfg : ISConfig) (r : ℕ) : ℕ :=
  rankStart cfg.nv r + rankStart cfg.npr r + rankStart cfg.nl r + rankStart cfg.nd r

/-- `offset_p = offset_v + vvec.getLocalSize()`. -/
def offsetP (cfg : ISConfig) (r : ℕ) : ℕ :=
  offsetV cfg r + cfg.nv r

/-- `offset_s = offset_p + p.getLocalSize()`. -/
def offsetS (cfg : ISConfig) (r : ℕ) : ℕ :=
  offsetP cfg r + cfg.npr r

/-- `offset_d = offset_s + lm.getLocalSize()`. -/
def offsetD (cfg : ISConfig) (r : ℕ) : ℕ :=
  offsetS cfg r + cfg.nl r

/-- `iset_v` (before the ROM carve-out). -/
def isetV (cfg : ISConfig) (r : ℕ) : Finset ℕ :=
  Finset.Ico (offsetV cfg r) (offsetV cfg r + cfg.nv r)

/-- `iset_r`: the ROM stride set, same offset as `iset_v`. -/
def isetR (cfg : ISConfig) (r : ℕ) : Finset ℕ :=
  Finset.Ico (offsetV cfg r) (offsetV cfg r + cfg.nrom r)

/-- `iset_p`. -/
def isetP (cfg : ISConfig) (r : ℕ) : Finset ℕ :=
  Finset.Ico (offsetP cfg r) (offsetP cfg r + cfg.npr r)

/-- `iset_s` (before the ROM merge). -/
def isetS (cfg : ISConfig) (r : ℕ) : Finset ℕ :=
  Finset.Ico (offsetS cfg r) (offsetS cfg r + cfg.nl r)

/-- `iset_d`. -/
def isetD (cfg : ISConfig) (r : ℕ) : Finset ℕ :=
  Finset.Ico (offsetD cfg r) (offsetD cfg r + cfg.nd r)

/-- `FluidmechanicsAleFlow0DProblem.get_index_sets(isoptions)` on rank `r`:
the stride index sets for velocity, pressure, multiplier and ALE fields,
with the ROM carve-out under `rom_to_new` (`IS.difference` / `IS.expand`)
and the multiplier merge under `lms_to_p` / `lms_to_v`. -/
def FluidmechanicsAleFlow0DProblem.get_index_sets (cfg : ISConfig) (opts : ISOptions)
    (r : ℕ) : List (Finset ℕ) :=
  let iset_v := if opts.rom_to_new then isetV cfg r \ isetR cfg r else isetV cfg r
  let iset_s := if opts.rom_to_new then isetS cfg r ∪ isetR cfg r else isetS cfg r
  if opts.lms_to_p then [iset_v, isetP cfg r ∪ iset_s, isetD cfg r]
  else if opts.lms_to_v then [iset_v ∪ iset_s, isetP cfg r, isetD cfg r]
  else [iset_v, isetP cfg r, iset_s, isetD cfg r]

/-- Total local size of one rank's slice of the global vector. -/
def totSize (cfg : ISConfig) (r : ℕ) : ℕ :=
  cfg.nv r + cfg.npr r + cfg.nl r + cfg.nd r

/-- Global size of the stacked solution vector. -/
def globalSize (cfg : ISConfig) : ℕ :=
  ∑ r ∈ Finset.range cfg.nranks, totSize cfg r

/-! ## Concrete instances used by witness theorems -/

/-- A concrete state vector used by witnesses. -/
def exVec : Vec := fun i => [(3 : ℚ), 5, 7].getD i 0

/-- A second concrete vector used by witnesses. -/
def exVec2 : Vec := fun i => [(2 : ℚ), -1, 4].getD i 0

/-- A concrete matrix used by witnesses. -/
def exMat : Mat := fun i j => (i : ℚ) + 2 * (j : ℚ)

/-- A concrete problem state used by witnesses. -/
def exProblemState : ProblemState :=
  { s := exVec, df := exVec2, f := exVec, aux := exVec2,
    s_old := fun _ => 0, df_old := fun _ => 0, f_old := fun _ => 0, aux_old := fun _ => 0,
    sTc := fun _ => 0, sTc_old := exVec, cycle := 2, cyclerr := 0 }

/-- A concrete symbolic model state used by witnesses. -/
def exSymState : SymState :=
  { numdof := 2
    f_ := fun i => Expr.mul (.sym i) (.sym 0)
    df_ := fun i => Expr.add (.sym i) (.const 1)
    K_ := fun _ _ => .const 0
    dK_ := fun _ _ => .const 0 }

/-- A concrete card-model parameter state used by witnesses. -/
def exCardState : CardState :=
  { R_vin_l_max := 3, R_vin_l_min := 5, R_vout_l_max := 7, R_vout_l_min := 11, rebuilds := 0 }

/-! ## C1: residual/stiffness assembly and the theta rule -/

/-- C1: for every time `t`, state and stored old quantities (and no
prescribed-variable overrides, as the claim assumes),
`assemble_residual_stiffness(t)` returns
`r = (df − df_old)/dt + theta*f + (1−theta)*f_old` and
`K_total = (1/dt)*dK + theta*K`, where `theta = 1` on the very first step
(`t` within floating-point tolerance of `dt`) when `initial_backwardeuler`
is configured, and `theta = theta_ost` otherwise. -/
theorem assemble_residual_stiffness_ok
    (numdof : ℕ) (ibe : Bool) (theta_ost dt : ℚ) (s df df_old f f_old : Vec) (dK K : Mat)
    (prescribed : List (ℕ × ℚ)) (t : ℚ) (hpres : prescribed = []) :
    (∀ i, (Flow0DProblem.assemble_residual_stiffness numdof ibe theta_ost dt
        s df df_old f f_old dK K prescribed t).1 i =
      (df i - df_old i) / dt + Flow0DProblem.theta0d_timint ibe theta_ost dt t * f i +
        (1 - Flow0DProblem.theta0d_timint ibe theta_ost dt t) * f_old i) ∧
    (∀ i j, (Flow0DProblem.assemble_residual_stiffness numdof ibe theta_ost dt
        s df df_old f f_old dK K prescribed t).2 i j =
      (1 / dt) * dK i j + Flow0DProblem.theta0d_timint ibe theta_ost dt t * K i j) ∧
    (ibe = true → npIsClose t dt = true →
      Flow0DProblem.theta0d_timint ibe theta_ost dt t = 1) ∧
    (ibe = true → npIsClose t dt = false →
      Flow0DProblem.theta0d_timint ibe theta_ost dt t = theta_ost) ∧
    (ibe = false → Flow0DProblem.theta0d_timint ibe theta_ost dt t = theta_ost) := by
  subst hpres
  refine ⟨?_, ?_, ?_, ?_, ?_⟩
  · intro i
    simp only [Flow0DProblem.assemble_residual_stiffness, vecAxpy, List.foldl_nil]
    ring
  · intro i j
    simp only [Flow0DProblem.assemble_residual_stiffness, matAxpy, List.foldl_nil]
    ring
  · intro hibe hcl
    simp [Flow0DProblem.theta0d_timint, hibe, hcl]
  · intro hibe hcl
    simp [Flow0DProblem.theta0d_timint, hibe, hcl]
  · intro hibe
    simp [Flow0DProblem.theta0d_timint, hibe]

/-- Witness for C1 at concrete inputs: the empty prescribed list and the
residual formula at index 0 with backward-Euler forcing at `t = dt`. -/
theorem assemble_residual_stiffness_ok_witness :
    ([] : List (ℕ × ℚ)) = [] ∧
    (∀ i, (Flow0DProblem.assemble_residual_stiffness 3 true (1/2) (1/100)
        exVec exVec exVec2 exVec exVec2 exMat exMat [] (1/100)).1 i =
      (exVec i - exVec2 i) / (1/100) +
        Flow0DProblem.theta0d_timint true (1/2) (1/100) (1/100) * exVec i +
        (1 - Flow0DProblem.theta0d_timint true (1/2) (1/100) (1/100)) * exVec2 i) :=
  ⟨rfl, (assemble_residual_stiffness_ok 3 true (1/2) (1/100) exVec exVec exVec2 exVec exVec2
      exMat exMat [] (1/100) rfl).1⟩

/-! ## C2: `set_prescribed_variables` -/

/-- C2: for every state vector `x`, value `v` and index `idx < numdof`,
after `set_prescribed_variables` the residual entry `idx` equals
`x[idx] − v`, row `idx` of `K` is the unit basis vector, no other residual
entry or matrix row is modified, and a second application with the same
arguments leaves `r` and `K` unchanged. -/
theorem set_prescribed_variables_ok (numdof : ℕ) (x r : Vec) (K : Mat) (val : ℚ)
    (idx : ℕ) (hidx : idx < numdof) :
    ((cardiovascular0Dbase.set_prescribed_variables numdof x r K val idx).1 idx = x idx - val) ∧
    ((cardiovascular0Dbase.set_prescribed_variables numdof x r K val idx).2 idx idx = 1) ∧
    (∀ j, j < numdof → j ≠ idx →
      (cardiovascular0Dbase.set_prescribed_variables numdof x r K val idx).2 idx j = 0) ∧
    (∀ i, i ≠ idx →
      (cardiovascular0Dbase.set_prescribed_variables numdof x r K val idx).1 i = r i) ∧
    (∀ i j, i ≠ idx →
      (cardiovascular0Dbase.set_prescribed_variables numdof x r K val idx).2 i j = K i j) ∧
    (cardiovascular0Dbase.set_prescribed_variables numdof x
        (cardiovascular0Dbase.set_prescribed_variables numdof x r K val idx).1
        (cardiovascular0Dbase.set_prescribed_variables numdof x r K val idx).2 val idx =
      cardiovascular0Dbase.set_prescribed_variables numdof x r K val idx) := by
  refine ⟨?_, ?_, ?_, ?_, ?_, ?_⟩
  · simp [cardiovascular0Dbase.set_prescribed_variables, hidx]
  · simp [cardiovascular0Dbase.set_prescribed_variables, hidx]
  · intro j hj hji
    simp [cardiovascular0Dbase.set_prescribed_variables, hidx, hj, hji]
  · intro i hi
    simp [cardiovascular0Dbase.set_prescribed_variables, hi]
  · intro i j hi
    simp [cardiovascular0Dbase.set_prescribed_variables, fun h : i = idx => hi h]
  · refine Prod.ext (funext fun i => ?_) (funext fun i => funext fun j => ?_)
    · by_cases hi : i = idx ∧ idx < numdof <;>
        simp [cardiovascular0Dbase.set_prescribed_variables, hi]
    · by_cases hij : i < numdof ∧ i = idx ∧ j < numdof <;>
        simp [cardiovascular0Dbase.set_prescribed_variables, hij, hidx]

/-- Witness for C2 at `numdof = 3`, `idx = 1`, `v = 4`. -/
theorem set_prescribed_variables_ok_witness :
    (1 : ℕ) < 3 ∧
    (cardiovascular0Dbase.set_prescribed_variables 3 exVec exVec2 exMat 4 1).1 1 =
      exVec 1 - 4 :=
  ⟨by decide, (set_prescribed_variables_ok 3 exVec exVec2 exMat 4 1 (by decide)).1⟩

/-! ## C3: symbolic stiffness construction -/

/-- C3: after `set_stiffness`, every stiffness entry with `i, j < numdof`
is the symbolic partial derivative of the corresponding residual
expression: `K_[i][j] = ∂f_[i]/∂x_[j]` and `dK_[i][j] = ∂df_[i]/∂x_[j]`. -/
theorem set_stiffness_ok (st : SymState) (i j : ℕ)
    (hi : i < st.numdof) (hj : j < st.numdof) :
    (cardiovascular0Dbase.set_stiffness st).K_ i j = (st.f_ i).deriv j ∧
    (cardiovascular0Dbase.set_stiffness st).dK_ i j = (st.df_ i).deriv j := by
  constructor <;> simp [cardiovascular0Dbase.set_stiffness, hi, hj]

/-- Witness for C3 on a concrete two-dof symbolic state. -/
theorem set_stiffness_ok_witness :
    (0 : ℕ) < exSymState.numdof ∧ (1 : ℕ) < exSymState.numdof ∧
    (cardiovascular0Dbase.set_stiffness exSymState).K_ 0 1 = (exSymState.f_ 0).deriv 1 :=
  ⟨by decide, by decide, (set_stiffness_ok exSymState 0 1 (by decide) (by decide)).1⟩

/-! ## C9: `update` commits new state into old state -/

/-- C9: `update` copies every owned entry of `var`, `df`, `f`, `aux` into
`var_old`, `df_old`, `f_old`, `aux_old`, leaves the new vectors (and the
cycle snapshots) unchanged, and the only other embedded operation that
writes the problem state, `cycle_check`, never modifies the committed old
vectors. -/
theorem update_ok (numdof : ℕ) (st : ProblemState) :
    (∀ i, i < numdof →
      (cardiovascular0Dbase.update numdof st).s_old i = st.s i ∧
      (cardiovascular0Dbase.update numdof st).df_old i = st.df i ∧
      (cardiovascular0Dbase.update numdof st).f_old i = st.f i ∧
      (cardiovascular0Dbase.update numdof st).aux_old i = st.aux i) ∧
    ((cardiovascular0Dbase.update numdof st).s = st.s ∧
     (cardiovascular0Dbase.update numdof st).df = st.df ∧
     (cardiovascular0Dbase.update numdof st).f = st.f ∧
     (cardiovascular0Dbase.update numdof st).aux = st.aux ∧
     (cardiovascular0Dbase.update numdof st).sTc = st.sTc ∧
     (cardiovascular0Dbase.update numdof st).sTc_old = st.sTc_old ∧
     (cardiovascular0Dbase.update numdof st).cycle = st.cycle) ∧
    (∀ T_cycl errnorm eps_periodic check ipac t,
      (cardiovascular0Dbase.cycle_check numdof T_cycl errnorm eps_periodic check ipac t
        st).2.s_old = st.s_old ∧
      (cardiovascular0Dbase.cycle_check numdof T_cycl errnorm eps_periodic check ipac t
        st).2.df_old = st.df_old ∧
      (cardiovascular0Dbase.cycle_check numdof T_cycl errnorm eps_periodic check ipac t
        st).2.f_old = st.f_old ∧
      (cardiovascular0Dbase.cycle_check numdof T_cycl errnorm eps_periodic check ipac t
        st).2.aux_old = st.aux_old) := by
  refine ⟨?_, ?_, ?_⟩
  · intro i hi
    refine ⟨?_, ?_, ?_, ?_⟩ <;> simp [cardiovascular0Dbase.update, hi]
  · refine ⟨rfl, rfl, rfl, rfl, rfl, rfl, rfl⟩
  · intro T_cycl errnorm eps_periodic check ipac t
    unfold cardiovascular0Dbase.cycle_check
    split <;> exact ⟨rfl, rfl, rfl, rfl⟩

/-- Witness for C9 on a concrete problem state, index 1 of 3 dofs. -/
theorem update_ok_witness :
    (1 : ℕ) < 3 ∧
    ((cardiovascular0Dbase.update 3 exProblemState).s_old 1 = exProblemState.s 1 ∧
     (cardiovascular0Dbase.update 3 exProblemState).df_old 1 = exProblemState.df 1 ∧
     (cardiovascular0Dbase.update 3 exProblemState).f_old 1 = exProblemState.f 1 ∧
     (cardiovascular0Dbase.update 3 exProblemState).aux_old 1 = exProblemState.aux 1) :=
  ⟨by decide, (update_ok 3 exProblemState).1 1 (by decide)⟩

/-! ## C10: unrecognized perturbation types are silent no-ops on parameters -/

/-- C10: for every `perturb_type` outside `{mr, ms, ar, as}` and every
factor, `induce_perturbation` raises no error (it is a total function),
leaves every valve resistance parameter unchanged, and still re-runs the
rebuild/recompile pipeline (generation counter advances). -/
theorem induce_perturbation_unknown_noop (ptype : String) (factor : ℚ) (st : CardState)
    (h : ptype ≠ "mr" ∧ ptype ≠ "ms" ∧ ptype ≠ "ar" ∧ ptype ≠ "as") :
    cardiovascular0Dbase.induce_perturbation ptype factor st =
      { st with rebuilds := st.rebuilds + 1 } := by
  obtain ⟨h1, h2, h3, h4⟩ := h
  simp [cardiovascular0Dbase.induce_perturbation, h1, h2, h3, h4]

/-- Witness for C10 with the unrecognized type `"tr"`. -/
theorem induce_perturbation_unknown_noop_witness :
    ("tr" ≠ "mr" ∧ "tr" ≠ "ms" ∧ "tr" ≠ "ar" ∧ "tr" ≠ "as") ∧
    cardiovascular0Dbase.induce_perturbation "tr" 2 exCardState =
      { exCardState with rebuilds := exCardState.rebuilds + 1 } :=
  ⟨by decide, induce_perturbation_unknown_noop "tr" 2 exCardState (by decide)⟩

/-! ## C4: the cycle/periodicity check -/

/-- C4: `cycle_check` never reports periodic while the cycle counter has not
advanced past the perturbation-induction cycle; at a cycle boundary with a
configured check, cycle error below `eps_periodic` and counter past the
induction cycle it reports periodic; and at every cycle boundary it copies
the new snapshot into `varTc_old` and increments the cycle counter. -/
theorem cycle_check_ok (numdof : ℕ) (T_cycl : ℚ) (errnorm : String → Vec → Vec → ℚ)
    (eps_periodic : ℚ) (check : Option String) (ipac : ℤ) (t : ℚ) (st : ProblemState) :
    (st.cycle ≤ ipac →
      (cardiovascular0Dbase.cycle_check numdof T_cycl errnorm eps_periodic check ipac t
        st).1 = false) ∧
    (∀ chk, check = some chk → T_cycl > 0 → npIsClose t T_cycl = true → ipac < st.cycle →
      errnorm chk (fun i => if i < numdof then st.s i else st.sTc i) st.sTc_old <
        eps_periodic →
      (cardiovascular0Dbase.cycle_check numdof T_cycl errnorm eps_periodic check ipac t
        st).1 = true) ∧
    (T_cycl > 0 → npIsClose t T_cycl = true →
      (∀ i, i < numdof →
        (cardiovascular0Dbase.cycle_check numdof T_cycl errnorm eps_periodic check ipac t
          st).2.sTc_old i = st.s i) ∧
      (cardiovascular0Dbase.cycle_check numdof T_cycl errnorm eps_periodic check ipac t
        st).2.cycle = st.cycle + 1) := by
  refine ⟨?_, ?_, ?_⟩
  · intro hc
    unfold cardiovascular0Dbase.cycle_check
    split
    · simp [hc]
    · rfl
  · rintro chk rfl hT hcl hcy herr
    unfold cardiovascular0Dbase.cycle_check
    rw [if_pos (by exact ⟨hT, hcl⟩)]
    simp only [check_periodic]
    rw [if_neg (by omega)]
    simpa using herr
  · intro hT hcl
    unfold cardiovascular0Dbase.cycle_check
    rw [if_pos (by exact ⟨hT, hcl⟩)]
    exact ⟨fun i hi => by simp [hi], rfl⟩

/-- Witness for C4 on a concrete state at an exact cycle boundary with a
constant-error norm below the threshold. -/
theorem cycle_check_ok_witness :
    ((some "allvar" : Option String) = some "allvar" ∧ (1 : ℚ) > 0 ∧
      npIsClose 1 1 = true ∧ (1 : ℤ) < exProblemState.cycle ∧
      (fun _ _ _ => (0 : ℚ)) "allvar"
        (fun i => if i < 3 then exProblemState.s i else exProblemState.sTc i)
        exProblemState.sTc_old < 1/2) ∧
    (cardiovascular0Dbase.cycle_check 3 1 (fun _ _ _ => (0 : ℚ)) (1/2) (some "allvar") 1 1
      exProblemState).1 = true :=
  ⟨⟨rfl, by norm_num, by norm_num [npIsClose], by decide, by norm_num⟩,
   (cycle_check_ok 3 1 (fun _ _ _ => (0 : ℚ)) (1/2) (some "allvar") 1 1
      exProblemState).2.1 "allvar" rfl (by norm_num) (by norm_num [npIsClose]) (by decide)
      (by norm_num)⟩

/-! ## C8: the valve-law linearization helper -/

/-- C8: for every valve law token and parameter set on which `valvelaw`
succeeds, the second returned component equals the reciprocal of the
symbolic derivative of the returned flow expression with respect to the
opening-pressure symbol whenever that symbol is not structurally zero, and
equals the constant one when the opening pressure is structurally zero. -/
theorem valvelaw_linearization_helper (p : Expr) (popen : Option ℕ)
    (Rmin Rmax : ℚ) (vtoken : String) (vp1 vp2 veps topen tclose : ℚ)
    (pr : Expr × Expr)
    (h : cardiovascular0Dbase.valvelaw p popen Rmin Rmax vtoken vp1 vp2 veps topen tclose =
      .ok pr) :
    (popen = none → pr.2 = Expr.const 1) ∧
    (∀ n, popen = some n → pr.2 = Expr.div (Expr.const 1) (pr.1.deriv n)) := by
  unfold cardiovascular0Dbase.valvelaw at h
  cases hvl : cardiovascular0Dbase.valvelaw_flow p popen Rmin Rmax vtoken vp1 vp2 veps
      topen tclose with
  | error e =>
      rw [hvl] at h
      simp only [Bind.bind, Except.bind] at h
      exact absurd h (by simp)
  | ok vl =>
      rw [hvl] at h
      simp only [Bind.bind, Except.bind, pure, Except.pure, Except.ok.injEq] at h
      constructor
      · rintro rfl
        rw [← h]
      · rintro n rfl
        rw [← h]

/-- The flow expression of the `pwlin_pres` law at concrete parameters,
used by the C8 witness. -/
def exVlaw : Expr :=
  Expr.div (.sub (.sym 1) (.sym 0))
    (Expr.pw2 (.const 2) (.lt (.sym 0) (.sym 1)) (.const 1) (.ge (.sym 0) (.sym 1)))

/-- Witness for C8: the `pwlin_pres` law with opening-pressure symbol
`x_[1]`, `Rmin = 1`, `Rmax = 2`. -/
theorem valvelaw_linearization_helper_witness :
    cardiovascular0Dbase.valvelaw (Expr.sym 0) (some 1) 1 2 "pwlin_pres" 0 0 0 0 0 =
      .ok (exVlaw, Expr.div (Expr.const 1) (exVlaw.deriv 1)) ∧
    (Expr.div (Expr.const 1) (exVlaw.deriv 1) = Expr.div (Expr.const 1) (exVlaw.deriv 1)) :=
  ⟨rfl,
   (valvelaw_linearization_helper (Expr.sym 0) (some 1) 1 2 "pwlin_pres" 0 0 0 0 0
      (exVlaw, Expr.div (Expr.const 1) (exVlaw.deriv 1)) rfl).2 1 rfl⟩

/-! ## C5: perturbation scheduling over execution traces -/

/-- The valve resistance parameter targeted by a perturbation type. -/
def targetParam (token : String) (cs : CardState) : ℚ :=
  if token = "mr" then cs.R_vin_l_max
  else if token = "ms" then cs.R_vin_l_min
  else if token = "ar" then cs.R_vout_l_max
  else cs.R_vout_l_min

/-- Once the latch is set, `induce_state_change` is the identity. -/
theorem induce_state_change_latched (pt : Option String) (factor : ℚ) (N c : ℤ)
    (st : PertState) (h : st.have_induced_pert = true) :
    Flow0DProblem.induce_state_change pt factor N c st = st := by
  cases pt <;> simp [Flow0DProblem.induce_state_change, h]

/-- Once the latch is set, a whole trace leaves the state unchanged. -/
theorem runPert_latched (pt : Option String) (factor : ℚ) (N : ℤ) (st : PertState)
    (trace : List ℤ) (h : st.have_induced_pert = true) :
    runPert pt factor N st trace = st := by
  induction trace with
  | nil => rfl
  | cons c rest ih =>
      unfold runPert at ih ⊢
      rw [List.foldl_cons, induce_state_change_latched pt factor N c st h]
      exact ih

/-- Once the latch is set, no further step applies the perturbation. -/
theorem countPertApplications_latched (pt : Option String) (factor : ℚ) (N : ℤ)
    (st : PertState) (trace : List ℤ) (h : st.have_induced_pert = true) :
    countPertApplications pt factor N st trace = 0 := by
  induction trace with
  | nil => rfl
  | cons c rest ih =>
      unfold countPertApplications
      rw [induce_state_change_latched pt factor N c st h]
      simp [pertApplies, h, ih]

/-- The perturbation scales exactly the targeted parameter. -/
theorem targetParam_scaled (token : String)
    (htok : token = "mr" ∨ token = "ms" ∨ token = "ar" ∨ token = "as")
    (factor : ℚ) (cs : CardState) :
    targetParam token (cardiovascular0Dbase.induce_perturbation token factor cs) =
      targetParam token cs * factor := by
  rcases htok with rfl | rfl | rfl | rfl <;>
    simp [targetParam, cardiovascular0Dbase.induce_perturbation]

/-- A step whose cycle counter does not exceed the threshold changes nothing. -/
theorem induce_state_change_below (token : String) (factor : ℚ) (N c : ℤ)
    (st : PertState) (hc : ¬ N < c) :
    Flow0DProblem.induce_state_change (some token) factor N c st = st := by
  simp only [Flow0DProblem.induce_state_change, Flow0DProblem.induce_perturbation]
  split_ifs <;> rfl

/-- A step whose cycle counter exceeds a positive threshold, from an
unlatched state, applies the perturbation and sets the latch. -/
theorem induce_state_change_fires (token : String) (factor : ℚ) (N c : ℤ)
    (st : PertState) (h : st.have_induced_pert = false) (hN : 0 < N) (hc : N < c) :
    Flow0DProblem.induce_state_change (some token) factor N c st =
      { card := cardiovascular0Dbase.induce_perturbation token factor st.card,
        have_induced_pert := true } := by
  simp [Flow0DProblem.induce_state_change, Flow0DProblem.induce_perturbation, h, hN, hc]

/-- Helper for C5: the run/count/parameter behaviour of a whole trace,
by induction over the trace. -/
theorem perturb_run_spec (token : String)
    (htok : token = "mr" ∨ token = "ms" ∨ token = "ar" ∨ token = "as")
    (factor : ℚ) (N : ℤ) (hN : 0 < N) (trace : List ℤ) :
    ∀ st0 : PertState, st0.have_induced_pert = false →
      countPertApplications (some token) factor N st0 trace =
        (if trace.any (fun c => decide (N < c)) then 1 else 0) ∧
      (runPert (some token) factor N st0 trace).have_induced_pert =
        trace.any (fun c => decide (N < c)) ∧
      targetParam token (runPert (some token) factor N st0 trace).card =
        (if trace.any (fun c => decide (N < c)) then targetParam token st0.card * factor
         else targetParam token st0.card) := by
  induction trace with
  | nil => intro st0 h0; exact ⟨rfl, by simpa [runPert], by simp [runPert]⟩
  | cons c rest ih =>
      intro st0 h0
      by_cases hc : N < c
      · have hstep := induce_state_change_fires token factor N c st0 h0 hN hc
        have hlat : (Flow0DProblem.induce_state_change (some token) factor N c
            st0).have_induced_pert = true := by rw [hstep]
        refine ⟨?_, ?_, ?_⟩
        · unfold countPertApplications
          rw [countPertApplications_latched _ _ _ _ _ hlat]
          simp [pertApplies, h0, hN, hc]
        · unfold runPert
          rw [List.foldl_cons]
          have := runPert_latched (some token) factor N _ rest hlat
          unfold runPert at this
          rw [this, hlat]
          simp [hc]
        · unfold runPert
          rw [List.foldl_cons]
          have := runPert_latched (some token) factor N _ rest hlat
          unfold runPert at this
          rw [this, hstep]
          simp [hc, targetParam_scaled token htok factor st0.card]
      · have hstep := induce_state_change_below token factor N c st0 hc
        obtain ⟨ih1, ih2, ih3⟩ := ih st0 h0
        refine ⟨?_, ?_, ?_⟩
        · unfold countPertApplications
          rw [hstep, ih1]
          simp [pertApplies, hc]
        · unfold runPert
          rw [List.foldl_cons, hstep]
          unfold runPert at ih2
          rw [ih2]
          simp [hc]
        · unfold runPert
          rw [List.foldl_cons, hstep]
          unfold runPert at ih3
          rw [ih3]
          simp [hc]

/-- C5: for a configured perturbation with positive threshold cycle `N`,
over every execution trace (the cycle-counter values seen by the per-step
`induce_state_change` calls) the perturbation is applied exactly once as
soon as the trace contains a step with cycle counter strictly exceeding
`N` (zero times otherwise), every applying step has cycle counter
strictly exceeding `N`, afterwards the targeted valve resistance parameter
equals its baseline times exactly the configured factor, and once the
latch is set it is never applied again. -/
theorem perturbation_schedule (trace : List ℤ) (N : ℤ) (factor : ℚ) (token : String)
    (htok : token = "mr" ∨ token = "ms" ∨ token = "ar" ∨ token = "as")
    (hN : 0 < N) (st0 : PertState) (h0 : st0.have_induced_pert = false) :
    (countPertApplications (some token) factor N st0 trace =
      (if trace.any (fun c => decide (N < c)) then 1 else 0)) ∧
    ((runPert (some token) factor N st0 trace).have_induced_pert =
      trace.any (fun c => decide (N < c))) ∧
    (targetParam token (runPert (some token) factor N st0 trace).card =
      (if trace.any (fun c => decide (N < c)) then targetParam token st0.card * factor
       else targetParam token st0.card)) ∧
    (∀ st c, pertApplies (some token) N st c = true → N < c) ∧
    (∀ (st : PertState) (trace2 : List ℤ), st.have_induced_pert = true →
      countPertApplications (some token) factor N st trace2 = 0 ∧
      runPert (some token) factor N st trace2 = st) := by
  obtain ⟨h1, h2, h3⟩ := perturb_run_spec token htok factor N hN trace st0 h0
  refine ⟨h1, h2, h3, ?_, ?_⟩
  · intro st c happ
    simp only [pertApplies, Bool.and_eq_true, decide_eq_true_eq] at happ
    exact happ.2
  · intro st trace2 hlat
    exact ⟨countPertApplications_latched _ _ _ _ _ hlat,
      runPert_latched _ _ _ _ _ hlat⟩

/-- A concrete unlatched perturbation state used by the C5 witness. -/
def exPertState : PertState := { card := exCardState, have_induced_pert := false }

/-- Witness for C5: token `mr`, threshold `N = 1`, trace `[1, 2]`. -/
theorem perturbation_schedule_witness :
    (("mr" = "mr" ∨ "mr" = "ms" ∨ "mr" = "ar" ∨ "mr" = "as") ∧ (0 : ℤ) < 1 ∧
      exPertState.have_induced_pert = false) ∧
    countPertApplications (some "mr") 2 1 exPertState [1, 2] =
      (if [(1 : ℤ), 2].any (fun c => decide ((1 : ℤ) < c)) then 1 else 0) :=
  ⟨⟨by decide, by decide, rfl⟩,
   (perturbation_schedule [1, 2] 1 2 "mr" (by decide) (by decide) exPertState rfl).1⟩

/-! ## C7: construction-time configuration errors -/

/-- Whether an `Except` computation completed without raising. -/
def exceptOk {α : Type} : Except String α → Bool
  | .ok _ => true
  | .error _ => false

/-- The recognized 0D model types of `Flow0DProblem.__init__`. -/
def modeltypeRecognized (mt : String) : Prop :=
  mt = "2elwindkessel" ∨ mt = "4elwindkesselLsZ" ∨ mt = "4elwindkesselLpZ" ∨
  mt = "syspul" ∨ mt = "syspulcap" ∨ mt = "syspulcapcor" ∨ mt = "syspulcaprespir"

/-- The recognized valve law tokens of `valvelaw`. -/
def valveLawRecognized (vtoken : String) : Prop :=
  vtoken = "pwlin_pres" ∨ vtoken = "pwlin_time" ∨ vtoken = "smooth_pres_resistance" ∨
  vtoken = "smooth_pres_momentum" ∨ vtoken = "pw_pres_regurg"

/-- The recognized chamber-variant / coupling-quantity combinations of
`set_compartment_interfaces` for the chamber at position `i`. -/
def chamberRecognized (cfg : IfaceCfg) (i : ℕ) (ch : String) : Prop :=
  (cfg.chmodels ch).ctype = "0D_elast" ∨ (cfg.chmodels ch).ctype = "0D_elast_prescr" ∨
  (cfg.chmodels ch).ctype = "0D_rigid" ∨
  ((cfg.chmodels ch).ctype = "prescribed" ∧ (cfg.cq i = "volume" ∨ cfg.cq i = "flux")) ∨
  ((cfg.chmodels ch).ctype = "3D_solid" ∧
    (cfg.cq i = "volume" ∨ cfg.cq i = "flux" ∨
      (cfg.cq i = "pressure" ∧ (cfg.vq i = "volume" ∨ cfg.vq i = "flux")))) ∨
  ((cfg.chmodels ch).ctype = "3D_fluid" ∧ cfg.cq i = "pressure")

set_option maxHeartbeats 1600000 in
/-- A chamber-loop iteration succeeds exactly on a recognized
variant/quantity combination. -/
theorem processChamber_ok_iff (cfg : IfaceCfg) (i : ℕ) (ch : String) (st : IfaceState) :
    exceptOk (processChamber cfg i ch st) = true ↔ chamberRecognized cfg i ch := by
  unfold chamberRecognized
  simp only [processChamber]
  split_ifs <;>
    · simp only [Except.map, exceptOk, Bool.false_eq_true]
      first
        | tauto
        | (constructor
           · intro hfalse
             exact hfalse.elim
           · intro hrec
             exfalso
             simp_all)

/-- `valvelaw_flow` succeeds exactly on a recognized law token. -/
theorem valvelaw_flow_ok_iff (p : Expr) (popen : Option ℕ) (Rmin Rmax : ℚ)
    (vtoken : String) (vp1 vp2 veps topen tclose : ℚ) :
    exceptOk (cardiovascular0Dbase.valvelaw_flow p popen Rmin Rmax vtoken
      vp1 vp2 veps topen tclose) = true ↔ valveLawRecognized vtoken := by
  simp only [cardiovascular0Dbase.valvelaw_flow]
  split_ifs <;> simp_all [exceptOk, valveLawRecognized, pure, Except.pure]

/-- C7: construction raises exactly on an unknown 0D model type, an unknown
chamber model variant or coupling-quantity combination, or an unknown valve
law token; every recognized combination completes without raising. -/
theorem construction_errors_iff :
    (∀ mt, exceptOk (Flow0DProblem.modeltype_dispatch mt) = true ↔ modeltypeRecognized mt) ∧
    (∀ (cfg : IfaceCfg) (st : IfaceState),
      exceptOk (cardiovascular0Dbase.set_compartment_interfaces cfg st) = true ↔
        (chamberRecognized cfg 0 "lv" ∧ chamberRecognized cfg 1 "rv" ∧
         chamberRecognized cfg 2 "la" ∧ chamberRecognized cfg 3 "ra" ∧
         chamberRecognized cfg 4 "ao")) ∧
    (∀ (p : Expr) (popen : Option ℕ) (Rmin Rmax : ℚ) (vtoken : String)
      (vp1 vp2 veps topen tclose : ℚ),
      exceptOk (cardiovascular0Dbase.valvelaw p popen Rmin Rmax vtoken
        vp1 vp2 veps topen tclose) = true ↔ valveLawRecognized vtoken) := by
  refine ⟨?_, ?_, ?_⟩
  · intro mt
    simp only [Flow0DProblem.modeltype_dispatch]
    split_ifs <;> simp_all [exceptOk, modeltypeRecognized]
  · intro cfg st
    simp only [cardiovascular0Dbase.set_compartment_interfaces, List.foldlM_cons,
      List.foldlM_nil, bind, Except.bind]
    cases h0 : processChamber cfg 0 "lv" st with
    | error e =>
        have := (processChamber_ok_iff cfg 0 "lv" st).not
        simp_all [exceptOk]
    | ok st1 =>
        have hr0 := (processChamber_ok_iff cfg 0 "lv" st).mp (by simp [h0, exceptOk])
        cases h1 : processChamber cfg 1 "rv" st1 with
        | error e =>
            have := (processChamber_ok_iff cfg 1 "rv" st1).not
            simp_all [exceptOk]
        | ok st2 =>
            have hr1 := (processChamber_ok_iff cfg 1 "rv" st1).mp (by simp [h1, exceptOk])
            cases h2 : processChamber cfg 2 "la" st2 with
            | error e =>
                have := (processChamber_ok_iff cfg 2 "la" st2).not
                simp_all [exceptOk]
            | ok st3 =>
                have hr2 := (processChamber_ok_iff cfg 2 "la" st2).mp (by simp [h2, exceptOk])
                cases h3 : processChamber cfg 3 "ra" st3 with
                | error e =>
                    have := (processChamber_ok_iff cfg 3 "ra" st3).not
                    simp_all [exceptOk]
                | ok st4 =>
                    have hr3 := (processChamber_ok_iff cfg 3 "ra" st3).mp
                      (by simp [h3, exceptOk])
                    have h4 := processChamber_ok_iff cfg 4 "ao" st4
                    cases h4e : processChamber cfg 4 "ao" st4 with
                    | error e => simp_all [exceptOk]
                    | ok st5 => simp_all [exceptOk, pure, Except.pure]
  · intro p popen Rmin Rmax vtoken vp1 vp2 veps topen tclose
    rw [← valvelaw_flow_ok_iff p popen Rmin Rmax vtoken vp1 vp2 veps topen tclose]
    simp only [cardiovascular0Dbase.valvelaw, bind, Except.bind]
    cases hf : cardiovascular0Dbase.valvelaw_flow p popen Rmin Rmax vtoken
        vp1 vp2 veps topen tclose with
    | error e => simp [exceptOk]
    | ok vl => simp [exceptOk, pure, Except.pure]

/-! ## C6: index-set tiling of the global solution vector -/

/-- The rank base offset is the sum of the preceding ranks' total sizes. -/
theorem offsetV_eq_sum (cfg : ISConfig) (r : ℕ) :
    offsetV cfg r = ∑ q ∈ Finset.range r, totSize cfg q := by
  unfold offsetV rankStart totSize
  rw [← Finset.sum_add_distrib, ← Finset.sum_add_distrib, ← Finset.sum_add_distrib]

/-- Disjointness of ordered integer intervals. -/
theorem icoDisjoint (a b c d : ℕ) (h : b ≤ c) :
    Disjoint (Finset.Ico a b) (Finset.Ico c d) := by
  refine Finset.disjoint_left.mpr fun x hx hy => ?_
  rw [Finset.mem_Ico] at hx hy
  omega

/-- Without ROM carve-out, the per-rank index sets union to the rank's
contiguous slice of the global vector. -/
theorem rank_fold_union (cfg : ISConfig) (opts : ISOptions) (r : ℕ)
    (hrom : opts.rom_to_new = false) :
    (FluidmechanicsAleFlow0DProblem.get_index_sets cfg opts r).foldr (· ∪ ·) ∅ =
      Finset.Ico (offsetV cfg r) (offsetV cfg r + totSize cfg r) := by
  unfold FluidmechanicsAleFlow0DProblem.get_index_sets
  rw [hrom]
  by_cases hp : opts.lms_to_p <;> by_cases hv : opts.lms_to_v <;>
    · simp only [hp, hv, if_true, if_false, Bool.false_eq_true, List.foldr]
      ext x
      simp only [Finset.mem_union, Finset.mem_Ico, Finset.not_mem_empty, or_false,
        isetV, isetP, isetS, isetD, offsetP, offsetS, offsetD, totSize]
      omega

/-- The pressure and multiplier stride sets are disjoint. -/
theorem disjPS (cfg : ISConfig) (r : ℕ) : Disjoint (isetP cfg r) (isetS cfg r) := by
  unfold isetP isetS
  exact icoDisjoint _ _ _ _ (by unfold offsetS; omega)

/-- The velocity and multiplier stride sets are disjoint. -/
theorem disjVS (cfg : ISConfig) (r : ℕ) : Disjoint (isetV cfg r) (isetS cfg r) := by
  unfold isetV isetS
  exact icoDisjoint _ _ _ _ (by unfold offsetS offsetP; omega)

/-- Without ROM carve-out, the per-rank index-set cardinalities sum to the
rank's total local size. -/
theorem rank_cards (cfg : ISConfig) (opts : ISOptions) (r : ℕ)
    (hrom : opts.rom_to_new = false) :
    ((FluidmechanicsAleFlow0DProblem.get_index_sets cfg opts r).map Finset.card).sum =
      totSize cfg r := by
  unfold FluidmechanicsAleFlow0DProblem.get_index_sets
  rw [hrom]
  by_cases hp : opts.lms_to_p
  · simp only [hp, if_true, Bool.false_eq_true, if_false, List.map, List.sum_cons,
      List.sum_nil]
    rw [Finset.card_union_of_disjoint (disjPS cfg r)]
    simp only [isetV, isetP, isetS, isetD, Nat.card_Ico, totSize]
    omega
  · by_cases hv : opts.lms_to_v
    · simp only [hp, hv, if_true, if_false, Bool.false_eq_true, List.map, List.sum_cons,
        List.sum_nil]
      rw [Finset.card_union_of_disjoint (disjVS cfg r)]
      simp only [isetV, isetP, isetS, isetD, Nat.card_Ico, totSize]
      omega
    · simp only [hp, hv, if_false, Bool.false_eq_true, List.map, List.sum_cons,
        List.sum_nil]
      simp only [isetV, isetP, isetS, isetD, Nat.card_Ico, totSize]
      omega

/-- Consecutive base intervals tile an initial segment. -/
theorem biUnion_base_intervals (f : ℕ → ℕ) (n : ℕ) :
    (Finset.range n).biUnion
      (fun r => Finset.Ico (∑ q ∈ Finset.range r, f q) (∑ q ∈ Finset.range r, f q + f r)) =
      Finset.range (∑ q ∈ Finset.range n, f q) := by
  induction n with
  | zero => simp
  | succ m ih =>
      rw [Finset.sum_range_succ, Finset.range_succ, Finset.biUnion_insert, ih]
      ext x
      simp only [Finset.mem_union, Finset.mem_Ico, Finset.mem_range]
      omega

/-- C6: without the (externally owned) ROM carve-out, the index sets
returned by `get_index_sets` exactly tile the global solution vector —
their union over all ranks is the full global range and their
cardinalities sum to the global size, so there are no gaps and no
overlaps; each field's offset is the sum of the preceding fields' local
sizes (and the rank base is the sum of the preceding ranks' slices);
`lms_to_p` merges the multiplier set into the pressure set, the mutually
exclusive `lms_to_v` merges it into the velocity set, and otherwise the
four sets are returned pairwise disjoint. -/
theorem get_index_sets_tiling (cfg : ISConfig) (opts : ISOptions)
    (hrom : opts.rom_to_new = false) :
    ((Finset.range cfg.nranks).biUnion
        (fun r => (FluidmechanicsAleFlow0DProblem.get_index_sets cfg opts r).foldr
          (· ∪ ·) ∅) = Finset.range (globalSize cfg)) ∧
    (∑ r ∈ Finset.range cfg.nranks,
        ((FluidmechanicsAleFlow0DProblem.get_index_sets cfg opts r).map Finset.card).sum =
      globalSize cfg) ∧
    (∀ r, offsetV cfg r = ∑ q ∈ Finset.range r, totSize cfg q ∧
      offsetP cfg r = offsetV cfg r + cfg.nv r ∧
      offsetS cfg r = offsetP cfg r + cfg.npr r ∧
      offsetD cfg r = offsetS cfg r + cfg.nl r) ∧
    (∀ r,
      (opts.lms_to_p = true →
        FluidmechanicsAleFlow0DProblem.get_index_sets cfg opts r =
          [isetV cfg r, isetP cfg r ∪ isetS cfg r, isetD cfg r]) ∧
      (opts.lms_to_p = false → opts.lms_to_v = true →
        FluidmechanicsAleFlow0DProblem.get_index_sets cfg opts r =
          [isetV cfg r ∪ isetS cfg r, isetP cfg r, isetD cfg r]) ∧
      (opts.lms_to_p = false → opts.lms_to_v = false →
        FluidmechanicsAleFlow0DProblem.get_index_sets cfg opts r =
          [isetV cfg r, isetP cfg r, isetS cfg r, isetD cfg r] ∧
        List.Pairwise Disjoint
          (FluidmechanicsAleFlow0DProblem.get_index_sets cfg opts r))) := by
  refine ⟨?_, ?_, ?_, ?_⟩
  · rw [Finset.biUnion_congr rfl
      (fun r _ => by rw [rank_fold_union cfg opts r hrom, offsetV_eq_sum])]
    exact biUnion_base_intervals (totSize cfg) cfg.nranks
  · rw [Finset.sum_congr rfl (fun r _ => rank_cards cfg opts r hrom)]
    rfl
  · intro r
    exact ⟨offsetV_eq_sum cfg r, rfl, rfl, rfl⟩
  · intro r
    refine ⟨?_, ?_, ?_⟩
    · intro hp
      simp [FluidmechanicsAleFlow0DProblem.get_index_sets, hrom, hp]
    · intro hp hv
      simp [FluidmechanicsAleFlow0DProblem.get_index_sets, hrom, hp, hv]
    · intro hp hv
      have h1 : Disjoint (isetV cfg r) (isetP cfg r) := by
        unfold isetV isetP
        exact icoDisjoint _ _ _ _ (by unfold offsetP; omega)
      have h2 := disjVS cfg r
      have h3 : Disjoint (isetV cfg r) (isetD cfg r) := by
        unfold isetV isetD
        exact icoDisjoint _ _ _ _ (by unfold offsetD offsetS offsetP; omega)
      have h4 := disjPS cfg r
      have h5 : Disjoint (isetP cfg r) (isetD cfg r) := by
        unfold isetP isetD
        exact icoDisjoint _ _ _ _ (by unfold offsetD offsetS; omega)
      have h6 : Disjoint (isetS cfg r) (isetD cfg r) := by
        unfold isetS isetD
        exact icoDisjoint _ _ _ _ (by unfold offsetD; omega)
      refine ⟨by simp [FluidmechanicsAleFlow0DProblem.get_index_sets, hrom, hp, hv], ?_⟩
      simp [FluidmechanicsAleFlow0DProblem.get_index_sets, hrom, hp, hv,
        List.pairwise_cons, h1, h2, h3, h4, h5, h6]

/-- A concrete two-rank field-size configuration used by the C6 witness. -/
def exISConfig : ISConfig :=
  { nranks := 2, nv := fun r => r + 2, npr := fun r => r + 1, nl := fun _ => 1,
    nd := fun r => 2 * r + 1, nrom := fun _ => 0 }

/-- Concrete index-set options used by the C6 witness. -/
def exISOptions : ISOptions :=
  { rom_to_new := false, lms_to_p := false, lms_to_v := false }

/-- Witness for C6 on a concrete two-rank configuration. -/
theorem get_index_sets_tiling_witness :
    exISOptions.rom_to_new = false ∧
    (Finset.range exISConfig.nranks).biUnion
        (fun r => (FluidmechanicsAleFlow0DProblem.get_index_sets exISConfig exISOptions
          r).foldr (· ∪ ·) ∅) = Finset.range (globalSize exISConfig) :=
  ⟨rfl, (get_index_sets_tiling exISConfig exISOptions rfl).1⟩

end Ambit
